import Mathlib

/-!
Shallow embedding of the HSA Shield expense tracker (TypeScript/React) in
Lean 4, covering the expense data hook (`src/hooks/use-expenses.ts`), the
authentication wrapper (`src/contexts/AuthContext.tsx`) and the expense
form (`src/components/ExpenseForm.tsx`).

Modelling choices:
* JavaScript `number` values are IEEE-754 binary64; each is modelled by
  the exact rational it denotes, and every arithmetic operation the
  dashboard performs on costs goes through the correctly-rounded
  binary64 model `roundF` (round to nearest, ties to even), so `x + y`
  in JS is `fadd x y = roundF (x + y)` here.  `Date` values and
  Firestore `Timestamp`s are integers (epoch milliseconds); document
  ids, uids, URLs and user agents are `String`s.
* `undefined`/`null` optional values are modelled with `Option`
  (`Option (Option _)` where the source distinguishes the two, as in
  `updateExpense`'s `dateOfPayment`).
* Backend calls (storage uploads, Firestore writes, toasts) are recorded
  as an explicit effect trace; Firestore itself is an association list of
  `(docId, doc)` pairs and the merge semantics of `updateDoc` is spelled
  out as `applyUpdate`.
-/

namespace Studio

/-- Client-side expense record (`src/lib/types.ts`, interface `Expense`).
`date`/`dateOfPayment` are ISO `YYYY-MM-DD` strings in TS; the optional
image URIs use `Option`. -/
structure Expense where
  id : String
  date : String
  provider : String
  patient : String
  cost : Rat
  isReimbursed : Bool
  receiptImageUri : Option String
  billImageUri : Option String
  dateOfPayment : Option String
deriving DecidableEq, Repr

/-- Firestore document shape (`use-expenses.ts`, `FirestoreExpenseDoc`).
Timestamps are epoch integers. An absent optional field and an explicit
`null` read identically, so both are `none`. -/
structure FirestoreExpenseDoc where
  date : Int
  dateOfPayment : Option Int
  provider : String
  patient : String
  cost : Rat
  isReimbursed : Bool
  receiptImageUri : Option String
  billImageUri : Option String
  createdAt : Int
  userId : String
deriving DecidableEq, Repr

/-- Result record of `getDashboardSummary` (`use-expenses.ts`). -/
structure DashboardSummary where
  totalExpenses : Rat
  totalReimbursed : Rat
  totalUnreimbursed : Rat
  countTotal : Nat
  countReimbursed : Nat
  countUnreimbursed : Nat
deriving DecidableEq, Repr

/-! ### IEEE-754 binary64 model

The dashboard sums costs with JavaScript `+`/`-`, which operate on
binary64 doubles, not exact numbers.  `roundF` below is the
correctly-rounded binary64 value (round to nearest, ties to even,
subnormals included) of an exact rational; it is faithful for every
operation whose exact result stays below the overflow threshold
`2^1024`, which covers all dashboard arithmetic on realistic costs.
`fadd`/`fsub` are then JS `+`/`-`. -/

/-- Fuel-driven `⌊log₂ n⌋` (any fuel at least the number of halvings,
e.g. `n` itself, gives the exact value for `n ≥ 1`). -/
def log2Fuel : Nat → Nat → Nat
  | 0, _ => 0
  | fuel + 1, n => if 2 ≤ n then log2Fuel fuel (n / 2) + 1 else 0

/-- `⌊log₂ n⌋` for `n ≥ 1`. -/
def natLog2 (n : Nat) : Nat := log2Fuel n n

/-- Fuel-driven `⌈log₂ n⌉` via `⌈log₂ n⌉ = ⌈log₂ ⌈n/2⌉⌉ + 1`. -/
def clog2Fuel : Nat → Nat → Nat
  | 0, _ => 0
  | fuel + 1, n => if n ≤ 1 then 0 else clog2Fuel fuel ((n + 1) / 2) + 1

/-- `⌈log₂ n⌉` for `n ≥ 1`. -/
def natClog2 (n : Nat) : Nat := clog2Fuel n n

/-- `⌊log₂ |q|⌋` for a nonzero rational: for `|q| ≥ 1` it is
`⌊log₂ ⌊|q|⌋⌋`, otherwise `-⌈log₂ ⌈|q|⁻¹⌉⌉`. -/
def ratExp2 (q : ℚ) : Int :=
  if 1 ≤ |q| then (natLog2 ⌊|q|⌋.toNat : Int)
  else -(natClog2 ⌈|q|⁻¹⌉.toNat : Int)

/-- `2^k` as a rational, for an integer exponent. -/
def pow2z (k : Int) : ℚ :=
  if 0 ≤ k then ((2 ^ k.toNat : Nat) : ℚ) else 1 / ((2 ^ (-k).toNat : Nat) : ℚ)

/-- Round a rational to the nearest integer, ties to the even one. -/
def roundHalfEven (x : ℚ) : Int :=
  if x - ⌊x⌋ < 1/2 then ⌊x⌋
  else if 1/2 < x - ⌊x⌋ then ⌊x⌋ + 1
  else if ⌊x⌋ % 2 = 0 then ⌊x⌋ else ⌊x⌋ + 1

/-- The binary64 double nearest to an exact rational (ties to even):
scale `q` so that the 53-bit significand sits at the integer position
(clamped at the subnormal exponent `2^-1074`), round to the nearest
integer significand, and scale back. -/
def roundF (q : ℚ) : ℚ :=
  if q = 0 then 0
  else (roundHalfEven (q / pow2z (max (ratExp2 q - 52) (-1074))) : ℚ)
    * pow2z (max (ratExp2 q - 52) (-1074))

/-- JavaScript `x + y` on doubles. -/
def fadd (x y : ℚ) : ℚ := roundF (x + y)

/-- JavaScript `x - y` on doubles. -/
def fsub (x y : ℚ) : ℚ := roundF (x - y)

/-- `getDashboardSummary` (`use-expenses.ts` lines 281-300): reductions
over the loaded expense list with JS double addition, the two `un-`
values computed by double subtraction exactly as in the source. -/
def getDashboardSummary (expenses : List Expense) : DashboardSummary :=
  let totalExpenses := expenses.foldl (fun sum exp => fadd sum exp.cost) 0
  let totalReimbursed :=
    (expenses.filter (fun exp => exp.isReimbursed)).foldl
      (fun sum exp => fadd sum exp.cost) 0
  let totalUnreimbursed := fsub totalExpenses totalReimbursed
  let countTotal := expenses.length
  let countReimbursed := (expenses.filter (fun exp => exp.isReimbursed)).length
  let countUnreimbursed := countTotal - countReimbursed
  { totalExpenses := totalExpenses
    totalReimbursed := totalReimbursed
    totalUnreimbursed := totalUnreimbursed
    countTotal := countTotal
    countReimbursed := countReimbursed
    countUnreimbursed := countUnreimbursed }

/-- Exponent of a positive rational below one, from its ceiling-log. -/
theorem ratExp2_of_lt_one {q : ℚ} {c : ℤ} {k : Nat}
    (h0 : 0 < q) (h1 : q < 1) (hc : ⌈q⁻¹⌉ = c) (hk : natClog2 c.toNat = k) :
    ratExp2 q = -(k : Int) := by
  have habs : |q| = q := abs_of_pos h0
  rw [ratExp2, habs, if_neg (not_le.2 h1), hc, hk]

/-- Exponent of a rational at least one, from its floor-log. -/
theorem ratExp2_of_one_le {q : ℚ} {n : ℤ} {k : Nat}
    (h1 : 1 ≤ q) (hn : ⌊q⌋ = n) (hk : natLog2 n.toNat = k) :
    ratExp2 q = (k : Int) := by
  have habs : |q| = q := abs_of_pos (lt_of_lt_of_le one_pos h1)
  rw [ratExp2, habs, if_pos h1, hn, hk]

/-- `pow2z` at a negative exponent. -/
theorem pow2z_neg {k : Int} {n : Nat} (hk : ¬ 0 ≤ k) (hn : (-k).toNat = n) :
    pow2z k = 1 / ((2 ^ n : Nat) : ℚ) := by
  rw [pow2z, if_neg hk, hn]

/-- Rounding an integer is the identity. -/
theorem roundHalfEven_intCast (n : ℤ) : roundHalfEven ((n : ℤ) : ℚ) = n := by
  rw [roundHalfEven, Int.floor_intCast]
  norm_num

/-- A tie at an odd floor rounds up to the even neighbour. -/
theorem roundHalfEven_tie_odd {x : ℚ} {n : ℤ} (hfl : ⌊x⌋ = n)
    (htie : x - n = 1/2) (hodd : n % 2 = 1) : roundHalfEven x = n + 1 := by
  rw [roundHalfEven, hfl, htie]
  norm_num [hodd]

/-- Evaluation scheme for `roundF` at a concrete nonzero input. -/
theorem roundF_eval {q : ℚ} {e : ℤ} {m : ℤ}
    (hq : q ≠ 0) (he : ratExp2 q = e)
    (hm : roundHalfEven (q / pow2z (max (e - 52) (-1074))) = m) :
    roundF q = (m : ℚ) * pow2z (max (e - 52) (-1074)) := by
  rw [roundF, if_neg hq, he, hm]

/-- `roundF` fixes zero. -/
theorem roundF_zero : roundF 0 = 0 := by
  rw [roundF, if_pos rfl]

/-- The costs of a list split into the reimbursed and unreimbursed parts. -/
theorem cost_sum_partition (l : List Expense) :
    ((l.filter (fun e => e.isReimbursed)).map (·.cost)).sum
      + ((l.filter (fun e => !e.isReimbursed)).map (·.cost)).sum
      = (l.map (·.cost)).sum := by
  induction l with
  | nil => simp
  | cons e t ih =>
    cases h : e.isReimbursed <;>
      simp [List.filter_cons, h, ← ih, add_assoc, add_left_comm]

/-- The length of a list splits into the reimbursed and unreimbursed parts. -/
theorem length_partition (l : List Expense) :
    (l.filter (fun e => e.isReimbursed)).length
      + (l.filter (fun e => !e.isReimbursed)).length = l.length := by
  induction l with
  | nil => simp
  | cons e t ih =>
    cases h : e.isReimbursed <;>
      simp [List.filter_cons, h, ← ih] <;> omega

/-- The double `0.1` (what JS stores for the literal `0.1`):
`3602879701896397 · 2^-55`. -/
def aD : ℚ := 3602879701896397 / 36028797018963968

/-- The double `0.2`: `3602879701896397 · 2^-54`. -/
def bD : ℚ := 3602879701896397 / 18014398509481984

/-- The double `0.30000000000000004`, i.e. `fl(0.1 + 0.2)`:
`5404319552844596 · 2^-54`. -/
def tD : ℚ := 5404319552844596 / 18014398509481984

/-- `0.1` is a binary64 fixed point of `roundF`. -/
theorem roundF_aD : roundF aD = aD := by
  have hc : ⌈aD⁻¹⌉ = (10 : ℤ) := by
    rw [Int.ceil_eq_iff]
    constructor <;> norm_num [aD]
  have hk : natClog2 ((10 : ℤ)).toNat = 4 := by decide
  have he : ratExp2 aD = -4 :=
    ratExp2_of_lt_one (by norm_num [aD]) (by norm_num [aD]) hc hk
  have hsh : max ((-4 : ℤ) - 52) (-1074) = -56 := by norm_num
  have hn : ((-(-56 : ℤ)).toNat) = 56 := by decide
  have hp : pow2z (-56 : ℤ) = 1 / ((72057594037927936 : ℚ)) := by
    rw [pow2z_neg (by norm_num) hn]
    norm_num
  have hx : aD / pow2z (-56 : ℤ) = ((7205759403792794 : ℤ) : ℚ) := by
    rw [hp]
    norm_num [aD]
  have hm : roundHalfEven (aD / pow2z (max ((-4 : ℤ) - 52) (-1074)))
      = 7205759403792794 := by
    rw [hsh, hx, roundHalfEven_intCast]
  rw [roundF_eval (by norm_num [aD]) he hm, hsh, hp]
  norm_num [aD]

/-- JS computes `0.1 + 0.2 = 0.30000000000000004`: the exact sum sits
exactly halfway between two doubles and the tie goes to the even (upper)
significand. -/
theorem fadd_aD_bD : fadd aD bD = tD := by
  have hab : aD + bD = 10808639105689191 / 36028797018963968 := by
    norm_num [aD, bD]
  have hc : ⌈(aD + bD)⁻¹⌉ = (4 : ℤ) := by
    rw [Int.ceil_eq_iff, hab]
    constructor <;> norm_num
  have hk : natClog2 ((4 : ℤ)).toNat = 2 := by decide
  have he : ratExp2 (aD + bD) = -2 :=
    ratExp2_of_lt_one (by rw [hab]; norm_num) (by rw [hab]; norm_num) hc hk
  have hsh : max ((-2 : ℤ) - 52) (-1074) = -54 := by norm_num
  have hn : ((-(-54 : ℤ)).toNat) = 54 := by decide
  have hp : pow2z (-54 : ℤ) = 1 / ((18014398509481984 : ℚ)) := by
    rw [pow2z_neg (by norm_num) hn]
    norm_num
  have hfl : ⌊(aD + bD) / pow2z (-54 : ℤ)⌋ = 5404319552844595 := by
    rw [hp, hab]
    norm_num
  have hm : roundHalfEven ((aD + bD) / pow2z (max ((-2 : ℤ) - 52) (-1074)))
      = 5404319552844596 := by
    rw [hsh]
    have := roundHalfEven_tie_odd (x := (aD + bD) / pow2z (-54 : ℤ))
      (n := 5404319552844595) hfl ?_ (by norm_num)
    · simpa using this
    · rw [hp, hab]
      norm_num
  rw [fadd, roundF_eval (by rw [hab]; norm_num) he hm, hsh, hp]
  norm_num [tD]

/-- JS computes `0.30000000000000004 - 0.1 = 0.20000000000000004`
(`7205759403792795 · 2^-55`, one ulp above the double `0.2`); the
subtraction itself is exact, the gap came from the earlier addition. -/
theorem fsub_tD_aD : fsub tD aD = 7205759403792795 / 36028797018963968 := by
  have hd : tD - aD = 7205759403792795 / 36028797018963968 := by
    norm_num [tD, aD]
  have hc : ⌈(tD - aD)⁻¹⌉ = (5 : ℤ) := by
    rw [Int.ceil_eq_iff, hd]
    constructor <;> norm_num
  have hk : natClog2 ((5 : ℤ)).toNat = 3 := by decide
  have he : ratExp2 (tD - aD) = -3 :=
    ratExp2_of_lt_one (by rw [hd]; norm_num) (by rw [hd]; norm_num) hc hk
  have hsh : max ((-3 : ℤ) - 52) (-1074) = -55 := by norm_num
  have hn : ((-(-55 : ℤ)).toNat) = 55 := by decide
  have hp : pow2z (-55 : ℤ) = 1 / ((36028797018963968 : ℚ)) := by
    rw [pow2z_neg (by norm_num) hn]
    norm_num
  have hx : (tD - aD) / pow2z (-55 : ℤ) = ((7205759403792795 : ℤ) : ℚ) := by
    rw [hp, hd]
    norm_num
  have hm : roundHalfEven ((tD - aD) / pow2z (max ((-3 : ℤ) - 52) (-1074)))
      = 7205759403792795 := by
    rw [hsh, hx, roundHalfEven_intCast]
  rw [fsub, roundF_eval (by rw [hd]; norm_num) he hm, hsh, hp]
  norm_num

/-- Small integers are binary64 fixed points: `1`. -/
theorem roundF_one : roundF (1 : ℚ) = 1 := by
  have hfl : ⌊(1 : ℚ)⌋ = (1 : ℤ) := by norm_num
  have hk : natLog2 ((1 : ℤ)).toNat = 0 := by decide
  have he : ratExp2 (1 : ℚ) = 0 := ratExp2_of_one_le (by norm_num) hfl hk
  have hsh : max ((0 : ℤ) - 52) (-1074) = -52 := by norm_num
  have hn : ((-(-52 : ℤ)).toNat) = 52 := by decide
  have hp : pow2z (-52 : ℤ) = 1 / ((4503599627370496 : ℚ)) := by
    rw [pow2z_neg (by norm_num) hn]
    norm_num
  have hx : (1 : ℚ) / pow2z (-52 : ℤ) = ((4503599627370496 : ℤ) : ℚ) := by
    rw [hp]
    norm_num
  have hm : roundHalfEven ((1 : ℚ) / pow2z (max ((0 : ℤ) - 52) (-1074)))
      = 4503599627370496 := by
    rw [hsh, hx, roundHalfEven_intCast]
  rw [roundF_eval (by norm_num) he hm, hsh, hp]
  norm_num

/-- Small integers are binary64 fixed points: `2`. -/
theorem roundF_two : roundF (2 : ℚ) = 2 := by
  have hfl : ⌊(2 : ℚ)⌋ = (2 : ℤ) := by norm_num
  have hk : natLog2 ((2 : ℤ)).toNat = 1 := by decide
  have he : ratExp2 (2 : ℚ) = 1 := ratExp2_of_one_le (by norm_num) hfl hk
  have hsh : max ((1 : ℤ) - 52) (-1074) = -51 := by norm_num
  have hn : ((-(-51 : ℤ)).toNat) = 51 := by decide
  have hp : pow2z (-51 : ℤ) = 1 / ((2251799813685248 : ℚ)) := by
    rw [pow2z_neg (by norm_num) hn]
    norm_num
  have hx : (2 : ℚ) / pow2z (-51 : ℤ) = ((4503599627370496 : ℤ) : ℚ) := by
    rw [hp]
    norm_num
  have hm : roundHalfEven ((2 : ℚ) / pow2z (max ((1 : ℤ) - 52) (-1074)))
      = 4503599627370496 := by
    rw [hsh, hx, roundHalfEven_intCast]
  rw [roundF_eval (by norm_num) he hm, hsh, hp]
  norm_num

/-- Small integers are binary64 fixed points: `3`. -/
theorem roundF_three : roundF (3 : ℚ) = 3 := by
  have hfl : ⌊(3 : ℚ)⌋ = (3 : ℤ) := by norm_num
  have hk : natLog2 ((3 : ℤ)).toNat = 1 := by decide
  have he : ratExp2 (3 : ℚ) = 1 := ratExp2_of_one_le (by norm_num) hfl hk
  have hsh : max ((1 : ℤ) - 52) (-1074) = -51 := by norm_num
  have hn : ((-(-51 : ℤ)).toNat) = 51 := by decide
  have hp : pow2z (-51 : ℤ) = 1 / ((2251799813685248 : ℚ)) := by
    rw [pow2z_neg (by norm_num) hn]
    norm_num
  have hx : (3 : ℚ) / pow2z (-51 : ℤ) = ((6755399441055744 : ℤ) : ℚ) := by
    rw [hp]
    norm_num
  have hm : roundHalfEven ((3 : ℚ) / pow2z (max ((1 : ℤ) - 52) (-1074)))
      = 6755399441055744 := by
    rw [hsh, hx, roundHalfEven_intCast]
  rw [roundF_eval (by norm_num) he hm, hsh, hp]
  norm_num

/-- The four sublists of a two-element list. -/
theorem sublist_pair {α : Type} {x y : α} {s : List α}
    (hs : s.Sublist [x, y]) :
    s = [] ∨ s = [x] ∨ s = [y] ∨ s = [x, y] := by
  cases hs with
  | cons a h2 =>
    cases h2 with
    | cons b h3 => exact Or.inl (List.sublist_nil.1 h3)
    | cons₂ b h3 =>
      rw [List.sublist_nil.1 h3]
      exact Or.inr (Or.inr (Or.inl rfl))
  | cons₂ a h2 =>
    cases h2 with
    | cons b h3 =>
      rw [List.sublist_nil.1 h3]
      exact Or.inr (Or.inl rfl)
    | cons₂ b h3 =>
      rw [List.sublist_nil.1 h3]
      exact Or.inr (Or.inr (Or.inr rfl))

/-- The JS double fold of the costs equals the exact sum as soon as
every sublist-sum of the cost list is exactly representable (a fixed
point of `roundF`): no rounding can then occur at any step. -/
theorem foldl_fadd_cost_eq_sum (l : List Expense)
    (h : ∀ s : List ℚ, s.Sublist (l.map (·.cost)) → roundF s.sum = s.sum) :
    l.foldl (fun sum exp => fadd sum exp.cost) 0 = (l.map (·.cost)).sum := by
  induction l using List.reverseRecOn with
  | nil => simp
  | append_singleton t e ih =>
    have hmap : (t ++ [e]).map (·.cost) = t.map (·.cost) ++ [e.cost] := by
      simp
    have hsubl : (t.map (·.cost)).Sublist ((t ++ [e]).map (·.cost)) := by
      rw [hmap]
      exact List.sublist_append_left _ _
    have ht : t.foldl (fun sum exp => fadd sum exp.cost) 0
        = (t.map (·.cost)).sum := ih fun s hs => h s (hs.trans hsubl)
    have hx := h ((t ++ [e]).map (·.cost)) (List.Sublist.refl _)
    rw [hmap, List.sum_append, List.sum_singleton] at hx
    rw [List.foldl_append, List.foldl_cons, List.foldl_nil, ht, hmap,
      List.sum_append, List.sum_singleton]
    show roundF ((t.map (·.cost)).sum + e.cost) = _
    exact hx

/-- The two-expense list exhibiting the float counterexample: the stored
doubles `0.1` (reimbursed) and `0.2` (unreimbursed). -/
def floatDemo : List Expense :=
  [{ id := "r1", date := "2024-01-01", provider := "p", patient := "q",
     cost := aD, isReimbursed := true, receiptImageUri := none,
     billImageUri := none, dateOfPayment := none },
   { id := "u1", date := "2024-01-02", provider := "p", patient := "q",
     cost := bD, isReimbursed := false, receiptImageUri := none,
     billImageUri := none, dateOfPayment := none }]

/-- C1 counterexample: on the loaded expenses `[0.1 reimbursed,
0.2 unreimbursed]` the program returns
`totalUnreimbursed = (0.1 ⊕ 0.2) ⊖ 0.1 = 0.20000000000000004`, which is
NOT the sum of the unreimbursed costs (`0.2`), and
`totalExpenses = 0.30000000000000004`, which is not the exact sum of the
costs either — the claimed equalities fail under binary64 arithmetic. -/
theorem getDashboardSummary_float_counterexample :
    (getDashboardSummary floatDemo).totalUnreimbursed
        ≠ ((floatDemo.filter (fun e => !e.isReimbursed)).map (·.cost)).sum
    ∧ (getDashboardSummary floatDemo).totalExpenses
        ≠ (floatDemo.map (·.cost)).sum := by
  have h0a : fadd 0 aD = aD := by
    rw [fadd, zero_add]
    exact roundF_aD
  constructor
  · show ¬ fsub (fadd (fadd 0 aD) bD) (fadd 0 aD) = bD + 0
    rw [h0a, fadd_aD_bD, fsub_tD_aD]
    norm_num [bD]
  · show ¬ fadd (fadd 0 aD) bD = aD + (bD + 0)
    rw [h0a, fadd_aD_bD]
    norm_num [tD, aD, bD]

/-- C1 (amended): `getDashboardSummary` returns the three counts exactly
as claimed (`countUnreimbursed` computed by subtraction equals the
direct count); `totalExpenses`/`totalReimbursed` are the binary64 folds
of the costs and `totalUnreimbursed` their binary64 difference, and all
three equal the exact sums — `totalUnreimbursed` the direct sum over
the unreimbursed expenses — whenever every sublist-sum of the cost list
is exactly representable as a double (e.g. whole-number costs), though
not for general decimal costs. -/
theorem getDashboardSummary_exact_on_representable (expenses : List Expense)
    (hfix : ∀ s : List ℚ, s.Sublist (expenses.map (·.cost)) →
      roundF s.sum = s.sum) :
    (getDashboardSummary expenses).countTotal = expenses.length
    ∧ (getDashboardSummary expenses).countReimbursed
        = (expenses.filter (fun e => e.isReimbursed)).length
    ∧ (getDashboardSummary expenses).countUnreimbursed
        = (expenses.filter (fun e => !e.isReimbursed)).length
    ∧ (getDashboardSummary expenses).totalExpenses
        = (expenses.map (·.cost)).sum
    ∧ (getDashboardSummary expenses).totalReimbursed
        = ((expenses.filter (fun e => e.isReimbursed)).map (·.cost)).sum
    ∧ (getDashboardSummary expenses).totalUnreimbursed
        = ((expenses.filter (fun e => !e.isReimbursed)).map (·.cost)).sum := by
  have hRsub : ((expenses.filter (fun e => e.isReimbursed)).map
      (·.cost)).Sublist (expenses.map (·.cost)) :=
    (List.filter_sublist _).map _
  have hUsub : ((expenses.filter (fun e => !e.isReimbursed)).map
      (·.cost)).Sublist (expenses.map (·.cost)) :=
    (List.filter_sublist _).map _
  have hA : expenses.foldl (fun sum exp => fadd sum exp.cost) 0
      = (expenses.map (·.cost)).sum := foldl_fadd_cost_eq_sum _ hfix
  have hR : (expenses.filter (fun e => e.isReimbursed)).foldl
        (fun sum exp => fadd sum exp.cost) 0
      = ((expenses.filter (fun e => e.isReimbursed)).map (·.cost)).sum :=
    foldl_fadd_cost_eq_sum _ fun s hs => hfix s (hs.trans hRsub)
  refine ⟨rfl, rfl, ?_, ?_, ?_, ?_⟩
  · have := length_partition expenses
    simp only [getDashboardSummary]
    omega
  · simp only [getDashboardSummary]
    exact hA
  · simp only [getDashboardSummary]
    exact hR
  · simp only [getDashboardSummary, fsub]
    rw [hA, hR]
    have heq : (expenses.map (·.cost)).sum
        - ((expenses.filter (fun e => e.isReimbursed)).map (·.cost)).sum
        = ((expenses.filter (fun e => !e.isReimbursed)).map (·.cost)).sum := by
      have := cost_sum_partition expenses
      linarith
    rw [heq]
    exact hfix _ hUsub

/-- A two-expense list with whole-number costs, for the C1 witness. -/
def intDemo : List Expense :=
  [{ id := "a1", date := "2024-01-01", provider := "p", patient := "q",
     cost := 1, isReimbursed := true, receiptImageUri := none,
     billImageUri := none, dateOfPayment := none },
   { id := "b1", date := "2024-01-02", provider := "p", patient := "q",
     cost := 2, isReimbursed := false, receiptImageUri := none,
     billImageUri := none, dateOfPayment := none }]

/-- Every sublist-sum of `intDemo`'s costs (`0`, `1`, `2`, `3`) is a
binary64 fixed point. -/
theorem intDemo_fix : ∀ s : List ℚ, s.Sublist (intDemo.map (·.cost)) →
    roundF s.sum = s.sum := by
  intro s hs
  have hs' : s.Sublist [(1 : ℚ), 2] := hs
  rcases sublist_pair hs' with rfl | rfl | rfl | rfl
  · simpa using roundF_zero
  · simpa using roundF_one
  · simpa using roundF_two
  · have h3 : ([(1 : ℚ), 2]).sum = 3 := by norm_num
    rw [h3]
    exact roundF_three

/-- Witness for the amended C1 at `intDemo`. -/
theorem getDashboardSummary_exact_on_representable_witness :
    (∀ s : List ℚ, s.Sublist (intDemo.map (·.cost)) →
      roundF s.sum = s.sum)
    ∧ ((getDashboardSummary intDemo).countTotal = intDemo.length
      ∧ (getDashboardSummary intDemo).countReimbursed
          = (intDemo.filter (fun e => e.isReimbursed)).length
      ∧ (getDashboardSummary intDemo).countUnreimbursed
          = (intDemo.filter (fun e => !e.isReimbursed)).length
      ∧ (getDashboardSummary intDemo).totalExpenses
          = (intDemo.map (·.cost)).sum
      ∧ (getDashboardSummary intDemo).totalReimbursed
          = ((intDemo.filter (fun e => e.isReimbursed)).map (·.cost)).sum
      ∧ (getDashboardSummary intDemo).totalUnreimbursed
          = ((intDemo.filter (fun e => !e.isReimbursed)).map (·.cost)).sum) :=
  ⟨intDemo_fix, getDashboardSummary_exact_on_representable intDemo intDemo_fix⟩

/-! ## Authentication wrapper (`src/contexts/AuthContext.tsx`) -/

/-- Environment facts read by `getDeviceDetails` (`AuthContext.tsx` lines
17-34): the user-agent string, whether `ontouchstart`/`maxTouchPoints`
report a touch device, and the screen width. -/
structure DeviceDetails where
  userAgent : String
  isTouchDevice : Bool
  screenWidth : Nat
deriving DecidableEq, Repr

/-- `pat` is a prefix of `hay` (character lists). -/
def charPrefix : List Char → List Char → Bool
  | [], _ => true
  | _ :: _, [] => false
  | a :: pat, b :: hay => a == b && charPrefix pat hay

/-- `pat` occurs as a contiguous substring of `hay`. -/
def charContains (pat : List Char) : List Char → Bool
  | [] => charPrefix pat []
  | b :: hay => charPrefix pat (b :: hay) || charContains pat hay

/-- The alternatives of the mobile user-agent regex
`/Android|webOS|iPhone|iPad|iPod|BlackBerry|IEMobile|Opera Mini/i`. -/
def mobileUAPatterns : List String :=
  ["Android", "webOS", "iPhone", "iPad", "iPod", "BlackBerry", "IEMobile",
   "Opera Mini"]

/-- The regex test itself: some alternative occurs case-insensitively in
the user agent (none of the alternatives uses regex metacharacters, so
the test is a case-insensitive substring search). -/
def isMobileUA (ua : String) : Bool :=
  mobileUAPatterns.any fun p =>
    charContains (p.toList.map Char.toLower) (ua.toList.map Char.toLower)

/-- `screen.width <= 768` (`AuthContext.tsx` line 24). -/
def isSmallScreen (d : DeviceDetails) : Bool :=
  d.screenWidth ≤ 768

/-- The mobile classification used by `signInWithGoogle` (line 263):
`getDeviceDetails().isMobileUA || (getDeviceDetails().isTouchDevice &&
getDeviceDetails().isSmallScreen)`. -/
def isMobileDevice (d : DeviceDetails) : Bool :=
  isMobileUA d.userAgent || (d.isTouchDevice && isSmallScreen d)

/-- Observable steps taken by `signInWithGoogle`, in order. -/
inductive AuthAction where
  /-- a `toast({title})` call, identified by its title -/
  | toast (title : String)
  /-- `setIsSigningIn(b)` -/
  | setSigningIn (b : Bool)
  /-- setting the `hsaShield_signingIn`/`hsaShield_signInTimestamp`
  localStorage flags -/
  | setLocalFlags
  /-- removing those localStorage flags -/
  | clearLocalFlags
  /-- the `signInWithRedirect(auth, provider)` SDK call -/
  | callSignInWithRedirect
  /-- the `signInWithPopup(auth, provider)` SDK call -/
  | callSignInWithPopup
deriving DecidableEq, Repr

/-- Outcome of the `signInWithPopup` SDK call: it either resolves or
rejects with a Firebase error code. -/
inductive PopupResult where
  | success
  | failure (code : String)
deriving DecidableEq, Repr

/-- The toast title `signInWithGoogle`'s popup `catch` block shows for a
given Firebase error code (`AuthContext.tsx` lines 290-300). -/
def popupErrorToastTitle (code : String) : String :=
  if code == "auth/popup-closed-by-user" || code == "auth/cancelled-popup-request"
  then "Sign-In Cancelled"
  else if code == "auth/popup-blocked" then "Popup Blocked"
  else if code == "auth/unauthorized-domain" then "Domain Not Authorized"
  else "Sign-In Failed"

/-- `signInWithGoogle` (`AuthContext.tsx` lines 240-303) as a trace of
observable actions. `authAvailable` is the `!auth` guard,
`currentUser`/`isSigningIn` the context state at the call,
`popupResult` what `signInWithPopup` does if called, and
`redirectThrows` whether `signInWithRedirect` throws if called. -/
def signInWithGoogle (authAvailable : Bool) (currentUser : Option String)
    (isSigningIn : Bool) (device : DeviceDetails)
    (popupResult : PopupResult) (redirectThrows : Bool) : List AuthAction :=
  if !authAvailable then [.toast "Service Error"]
  else if currentUser.isSome then []
  else if isSigningIn then [.toast "Sign-In In Progress"]
  else
    let mobile := isMobileDevice device
    AuthAction.setSigningIn true ::
      (if mobile then
        [AuthAction.setLocalFlags, AuthAction.callSignInWithRedirect] ++
          (if redirectThrows then
            [AuthAction.clearLocalFlags, AuthAction.setSigningIn false,
             AuthAction.toast "Sign-In Failed"]
          else [])
      else
        AuthAction.callSignInWithPopup ::
          (match popupResult with
           | .success => [AuthAction.toast "Sign-In Successful!"]
           | .failure code =>
             [AuthAction.setSigningIn false,
              AuthAction.toast (popupErrorToastTitle code)]))

/-- A concrete desktop environment: a desktop Chrome user agent, no touch
support, a 1920-pixel-wide screen. -/
def desktopDevice : DeviceDetails :=
  { userAgent := "Mozilla/5.0 (Windows NT 10.0; Win64; x64) Chrome/120.0"
    isTouchDevice := false
    screenWidth := 1920 }

/-- C2 counterexample: on a desktop device with no user signed in and no
sign-in in progress, when `signInWithPopup` rejects (here with
`auth/popup-blocked`), `signInWithGoogle` does NOT fall back to
`signInWithRedirect`: the popup is attempted and fails, yet no redirect
sign-in appears in the trace — only a toast and a state reset. -/
theorem signInWithGoogle_popup_failure_no_redirect_fallback :
    (AuthAction.callSignInWithPopup
        ∈ signInWithGoogle true none false desktopDevice
            (.failure "auth/popup-blocked") false)
    ∧ (AuthAction.callSignInWithRedirect
        ∉ signInWithGoogle true none false desktopDevice
            (.failure "auth/popup-blocked") false) := by
  decide

/-- C2 (amended): when a popup sign-in attempt fails on a non-mobile
device, `signInWithGoogle` resets the signing-in state and reports the
failure with an error-code-specific toast; it never initiates a redirect
sign-in. -/
theorem signInWithGoogle_popup_failure_reports (device : DeviceDetails)
    (code : String) (redirectThrows : Bool)
    (hmobile : isMobileDevice device = false) :
    signInWithGoogle true none false device (.failure code) redirectThrows
      = [AuthAction.setSigningIn true, AuthAction.callSignInWithPopup,
         AuthAction.setSigningIn false,
         AuthAction.toast (popupErrorToastTitle code)]
    ∧ AuthAction.callSignInWithRedirect
        ∉ signInWithGoogle true none false device (.failure code)
            redirectThrows := by
  constructor
  · simp [signInWithGoogle, hmobile]
  · simp [signInWithGoogle, hmobile]

/-- Witness for the amended C2 theorem at a concrete desktop input. -/
theorem signInWithGoogle_popup_failure_reports_witness :
    isMobileDevice desktopDevice = false
    ∧ (signInWithGoogle true none false desktopDevice
          (.failure "auth/popup-blocked") false
        = [AuthAction.setSigningIn true, AuthAction.callSignInWithPopup,
           AuthAction.setSigningIn false, AuthAction.toast "Popup Blocked"]
      ∧ AuthAction.callSignInWithRedirect
          ∉ signInWithGoogle true none false desktopDevice
              (.failure "auth/popup-blocked") false) :=
  ⟨by decide,
   by
    have h := signInWithGoogle_popup_failure_reports desktopDevice
      "auth/popup-blocked" false (by decide)
    simpa [popupErrorToastTitle] using h⟩

/-- An action is one of the two sign-in flow initiations. -/
def isFlowCall (a : AuthAction) : Bool :=
  a == AuthAction.callSignInWithRedirect || a == AuthAction.callSignInWithPopup

/-- C3: with the auth service available, no user signed in and no sign-in
in progress, `signInWithGoogle` initiates exactly one sign-in flow, and
it is the redirect flow precisely when the device is classified mobile
(mobile user-agent, or touch-capable with screen width at most 768);
otherwise it is the popup flow. -/
theorem signInWithGoogle_chooses_one_flow (currentUser : Option String)
    (isSigningIn : Bool) (device : DeviceDetails) (popupResult : PopupResult)
    (redirectThrows : Bool) (huser : currentUser = none)
    (hprog : isSigningIn = false) :
    ((signInWithGoogle true currentUser isSigningIn device popupResult
        redirectThrows).filter isFlowCall).length = 1
    ∧ (AuthAction.callSignInWithRedirect
          ∈ signInWithGoogle true currentUser isSigningIn device popupResult
              redirectThrows
        ↔ isMobileDevice device = true)
    ∧ (AuthAction.callSignInWithPopup
          ∈ signInWithGoogle true currentUser isSigningIn device popupResult
              redirectThrows
        ↔ isMobileDevice device = false)
    ∧ (isMobileDevice device
        = (isMobileUA device.userAgent
            || (device.isTouchDevice && decide (device.screenWidth ≤ 768)))) := by
  subst huser hprog
  refine ⟨?_, ?_, ?_, rfl⟩ <;>
    cases hm : isMobileDevice device <;>
      cases popupResult <;>
        cases redirectThrows <;>
          simp [signInWithGoogle, hm, isFlowCall]

/-- Witness for C3 at concrete inputs: a touch device with a small screen
is classified mobile even with a desktop user agent. -/
theorem signInWithGoogle_chooses_one_flow_witness :
    (none : Option String) = none ∧ false = false
    ∧ (((signInWithGoogle true none false
            { userAgent := "Mozilla/5.0 (X11; Linux x86_64)",
              isTouchDevice := true, screenWidth := 600 }
            PopupResult.success false).filter isFlowCall).length = 1
      ∧ (AuthAction.callSignInWithRedirect
            ∈ signInWithGoogle true none false
                { userAgent := "Mozilla/5.0 (X11; Linux x86_64)",
                  isTouchDevice := true, screenWidth := 600 }
                PopupResult.success false
          ↔ isMobileDevice
              { userAgent := "Mozilla/5.0 (X11; Linux x86_64)",
                isTouchDevice := true, screenWidth := 600 } = true)
      ∧ (AuthAction.callSignInWithPopup
            ∈ signInWithGoogle true none false
                { userAgent := "Mozilla/5.0 (X11; Linux x86_64)",
                  isTouchDevice := true, screenWidth := 600 }
                PopupResult.success false
          ↔ isMobileDevice
              { userAgent := "Mozilla/5.0 (X11; Linux x86_64)",
                isTouchDevice := true, screenWidth := 600 } = false)
      ∧ (isMobileDevice
            { userAgent := "Mozilla/5.0 (X11; Linux x86_64)",
              isTouchDevice := true, screenWidth := 600 }
          = (isMobileUA "Mozilla/5.0 (X11; Linux x86_64)"
              || (true && decide ((600 : Nat) ≤ 768))))) :=
  ⟨rfl, rfl,
   signInWithGoogle_chooses_one_flow none false
     { userAgent := "Mozilla/5.0 (X11; Linux x86_64)",
       isTouchDevice := true, screenWidth := 600 }
     PopupResult.success false rfl rfl⟩

/-! ## Expense data hook (`src/hooks/use-expenses.ts`) -/

/-- JavaScript `x || <fallback-empty>` truthiness on an optional string:
an absent value or the empty string collapses to `none` (used for
`data.receiptImageUri || undefined` on reads and
`receiptImageUrl || null` on writes). -/
def jsOrNone : Option String → Option String
  | some s => if s = "" then none else some s
  | none => none

/-- Partial update object passed to `updateDoc`. `some v` means the field
is present in the update (with `some none` writing `null`); `none` means
the field is omitted and the stored value is kept. `userId` and
`createdAt` cannot appear, matching the TS type
`Partial<Omit<FirestoreExpenseDoc, 'id' | 'createdAt' | 'userId'>>`. -/
structure UpdateFields where
  date : Option Int := none
  dateOfPayment : Option (Option Int) := none
  provider : Option String := none
  patient : Option String := none
  cost : Option Rat := none
  isReimbursed : Option Bool := none
  receiptImageUri : Option (Option String) := none
  billImageUri : Option (Option String) := none
deriving DecidableEq, Repr

/-- Firestore `updateDoc` merge semantics: fields present in the update
replace the stored ones, omitted fields are kept; the document keeps its
`userId` and `createdAt`. -/
def applyUpdate (d : FirestoreExpenseDoc) (u : UpdateFields) :
    FirestoreExpenseDoc where
  date := u.date.getD d.date
  dateOfPayment := match u.dateOfPayment with
    | none => d.dateOfPayment
    | some v => v
  provider := u.provider.getD d.provider
  patient := u.patient.getD d.patient
  cost := u.cost.getD d.cost
  isReimbursed := u.isReimbursed.getD d.isReimbursed
  receiptImageUri := match u.receiptImageUri with
    | none => d.receiptImageUri
    | some v => v
  billImageUri := match u.billImageUri with
    | none => d.billImageUri
    | some v => v
  createdAt := d.createdAt
  userId := d.userId

/-- Backend calls made by the hook, in program order. -/
inductive Effect where
  /-- `uploadBytes(ref(storage, path), file)` -/
  | uploadBytes (path : String)
  /-- `getDownloadURL(ref)` -/
  | getDownloadURL (path : String)
  /-- `deleteObject(ref(storage, path))` -/
  | deleteObject (path : String)
  /-- `addDoc(collection(db, 'expenses'), doc)` -/
  | addDoc (doc : FirestoreExpenseDoc)
  /-- `updateDoc(doc(db, 'expenses', id), fields)` -/
  | updateDoc (id : String) (fields : UpdateFields)
  /-- `deleteDoc(doc(db, 'expenses', id))` -/
  | deleteDoc (id : String)
  /-- a `toast({title})` call -/
  | toast (title : String)
deriving DecidableEq, Repr

/-- Persisted backend state: the `expenses` collection as an association
list of `(docId, doc)` and the set of object-storage paths. -/
structure BackendState where
  db : List (String × FirestoreExpenseDoc)
  storagePaths : List String
deriving DecidableEq, Repr

/-- One effect against the backend. `addDoc` creates a fresh
server-generated id; `updateDoc` merges into the document with the given
id; `deleteObject` on a missing path is a no-op (the hook wraps it in
`try`/`catch` and ignores failures). -/
def applyEffect (s : BackendState) : Effect → BackendState
  | .uploadBytes p => { s with storagePaths := s.storagePaths ++ [p] }
  | .getDownloadURL _ => s
  | .deleteObject p =>
    { s with storagePaths := s.storagePaths.filter (fun q => q ≠ p) }
  | .addDoc d =>
    { s with db := s.db ++ [("doc" ++ toString s.db.length, d)] }
  | .updateDoc id u =>
    { s with db := s.db.map fun p =>
        if p.1 = id then (p.1, applyUpdate p.2 u) else p }
  | .deleteDoc id => { s with db := s.db.filter fun p => p.1 ≠ id }
  | .toast _ => s

/-- Running a whole effect trace against the backend. -/
def applyEffects (s : BackendState) (es : List Effect) : BackendState :=
  es.foldl applyEffect s

/-- The `onSnapshot` mapping from a Firestore document to the client
`Expense` (`use-expenses.ts` lines 68-81). `tsToDateStr` stands for
`Timestamp.toDate().toISOString().split('T')[0]`, a platform-owned
conversion; `data.receiptImageUri || undefined` collapses empty strings. -/
def docToExpense (tsToDateStr : Int → String) (docId : String)
    (d : FirestoreExpenseDoc) : Expense where
  id := docId
  date := tsToDateStr d.date
  dateOfPayment := d.dateOfPayment.map tsToDateStr
  provider := d.provider
  patient := d.patient
  cost := d.cost
  isReimbursed := d.isReimbursed
  receiptImageUri := jsOrNone d.receiptImageUri
  billImageUri := jsOrNone d.billImageUri

/-- Server ordering of the query:
`orderBy('date', 'desc'), orderBy('createdAt', 'desc')`. -/
def expenseDocOrder (a b : String × FirestoreExpenseDoc) : Bool :=
  b.2.date < a.2.date || (a.2.date == b.2.date && b.2.createdAt ≤ a.2.createdAt)

/-- The live query the hook subscribes to (`use-expenses.ts` lines
56-84): filter by `where('userId', '==', currentUser.uid)`, order by
date then creation time descending, then map each document snapshot to
an `Expense`. -/
def expensesView (tsToDateStr : Int → String)
    (db : List (String × FirestoreExpenseDoc)) (uid : String) :
    List Expense :=
  (((db.filter fun p => p.2.userId == uid).mergeSort expenseDocOrder).map
    fun p => docToExpense tsToDateStr p.1 p.2)

/-- The `expenses` state the hook exposes (`use-expenses.ts` lines
48-53): empty when nobody is signed in, otherwise the subscribed view. -/
def hookExpenses (tsToDateStr : Int → String) (currentUser : Option String)
    (db : List (String × FirestoreExpenseDoc)) : List Expense :=
  match currentUser with
  | none => []
  | some uid => expensesView tsToDateStr db uid

/-- A `File | Blob` attachment; `name` is `some` exactly for a `File`
(the content itself is irrelevant to the claims). -/
structure ImageFile where
  name : Option String
deriving DecidableEq, Repr

/-- Storage path for a receipt upload:
`expense_images/{uid}/receipts/{uuid}-{fileName}`. -/
def receiptPath (uid uuid name : String) : String :=
  "expense_images/" ++ uid ++ "/receipts/" ++ uuid ++ "-" ++ name

/-- Storage path for a bill upload:
`expense_images/{uid}/bills/{uuid}-{fileName}`. -/
def billPath (uid uuid name : String) : String :=
  "expense_images/" ++ uid ++ "/bills/" ++ uuid ++ "-" ++ name

/-- Input to `addExpense`. `dateOfPayment` is `Date | null | undefined`
in TS; the code tests it for truthiness (a `Date` object is always
truthy) so `null` and `undefined` coincide and `Option Int` suffices. -/
structure AddExpenseInput where
  date : Int
  dateOfPayment : Option Int
  provider : String
  patient : String
  cost : Rat
  isReimbursedInput : Option Bool
  receiptImageFile : Option ImageFile
  billImageFile : Option ImageFile
deriving DecidableEq, Repr

/-- `addExpense` (`use-expenses.ts` lines 98-152) as an effect trace.
`urlOf` models `getDownloadURL` (path to URL), `now` the value
`serverTimestamp()` resolves to, `uuidR`/`uuidB` the two `uuidv4()`
draws. -/
def addExpense (urlOf : String → String) (now : Int) (uuidR uuidB : String)
    (currentUser : Option String) (input : AddExpenseInput) : List Effect :=
  match currentUser with
  | none => [.toast "Not Authenticated"]
  | some uid =>
    let rUpload : List Effect × Option String :=
      match input.receiptImageFile with
      | none => ([], none)
      | some f =>
        let path := receiptPath uid uuidR (f.name.getD "receipt.jpg")
        ([.uploadBytes path, .getDownloadURL path], some (urlOf path))
    let bUpload : List Effect × Option String :=
      match input.billImageFile with
      | none => ([], none)
      | some f =>
        let path := billPath uid uuidB (f.name.getD "bill.jpg")
        ([.uploadBytes path, .getDownloadURL path], some (urlOf path))
    let newExpenseData : FirestoreExpenseDoc :=
      { date := input.date
        dateOfPayment := input.dateOfPayment
        provider := input.provider
        patient := input.patient
        cost := input.cost
        isReimbursed := input.isReimbursedInput.getD false
        receiptImageUri := jsOrNone rUpload.2
        billImageUri := jsOrNone bUpload.2
        createdAt := now
        userId := uid }
    rUpload.1 ++ bUpload.1 ++ [.addDoc newExpenseData, .toast "Expense Added"]

/-- Input to `updateExpense`. `dateOfPayment` distinguishes `undefined`
(`none`, field left unchanged), `null` (`some none`, cleared) and a
`Date` (`some (some t)`); `receiptImageUri`/`billImageUri` are
`string | undefined`. -/
structure UpdateExpenseInput where
  date : Int
  dateOfPayment : Option (Option Int)
  provider : String
  patient : String
  cost : Rat
  isReimbursedInput : Option Bool
  receiptImageFile : Option ImageFile
  billImageFile : Option ImageFile
  receiptImageUri : Option String
  billImageUri : Option String
deriving DecidableEq, Repr

/-- The `if (currentExpense?.receiptImageUri) { deleteObject(...) }`
pattern: delete the old object when the loaded expense has a truthy
image URI. -/
def deleteOldImage (u : Option String) : List Effect :=
  match jsOrNone u with
  | some old => [.deleteObject old]
  | none => []

/-- `updateExpense` (`use-expenses.ts` lines 154-230) as an effect
trace. The loaded `expenses` list is consulted for the old image URIs
and the `isReimbursed` fallback. -/
def updateExpense (urlOf : String → String) (uuidR uuidB : String)
    (currentUser : Option String) (expenses : List Expense) (id : String)
    (input : UpdateExpenseInput) : List Effect :=
  match currentUser with
  | none => [.toast "Not Authenticated"]
  | some uid =>
    let currentExpense := expenses.find? fun exp => exp.id == id
    let rStep : List Effect × Option String :=
      match input.receiptImageFile with
      | none => ([], input.receiptImageUri)
      | some f =>
        let deleteOld := deleteOldImage (currentExpense.bind (·.receiptImageUri))
        let path := receiptPath uid uuidR (f.name.getD "receipt.jpg")
        (deleteOld ++ [.uploadBytes path, .getDownloadURL path],
         some (urlOf path))
    let bStep : List Effect × Option String :=
      match input.billImageFile with
      | none => ([], input.billImageUri)
      | some f =>
        let deleteOld := deleteOldImage (currentExpense.bind (·.billImageUri))
        let path := billPath uid uuidB (f.name.getD "bill.jpg")
        (deleteOld ++ [.uploadBytes path, .getDownloadURL path],
         some (urlOf path))
    let updatedFields : UpdateFields :=
      { date := some input.date
        dateOfPayment := input.dateOfPayment
        provider := some input.provider
        patient := some input.patient
        cost := some input.cost
        isReimbursed := some (input.isReimbursedInput.getD
          (match currentExpense with
           | some e => e.isReimbursed
           | none => false))
        receiptImageUri := some rStep.2
        billImageUri := some bStep.2 }
    rStep.1 ++ bStep.1 ++ [.updateDoc id updatedFields, .toast "Expense Updated"]

/-- `deleteExpense` (`use-expenses.ts` lines 232-258) as an effect
trace: delete the truthy image objects of the loaded expense, then the
document. -/
def deleteExpense (currentUser : Option String) (expenses : List Expense)
    (id : String) : List Effect :=
  match currentUser with
  | none => [.toast "Not Authenticated"]
  | some _ =>
    let expenseToDelete := expenses.find? fun exp => exp.id == id
    deleteOldImage (expenseToDelete.bind (·.receiptImageUri))
      ++ deleteOldImage (expenseToDelete.bind (·.billImageUri))
      ++ [.deleteDoc id]

/-- `toggleReimbursement` (`use-expenses.ts` lines 265-279) as an effect
trace: no user or no loaded expense with that id means no write;
otherwise a single-field `updateDoc` negating the loaded flag. -/
def toggleReimbursement (currentUser : Option String)
    (expenses : List Expense) (id : String) : List Effect :=
  match currentUser with
  | none => []
  | some _ =>
    match expenses.find? fun exp => exp.id == id with
    | none => []
    | some expense =>
      [.updateDoc id { isReimbursed := some (!expense.isReimbursed) }]

/-- Membership in the subscribed view: exactly the images of the
documents whose `userId` matches the query's uid. -/
theorem mem_expensesView {tsToDateStr : Int → String}
    {db : List (String × FirestoreExpenseDoc)} {uid : String} {e : Expense} :
    e ∈ expensesView tsToDateStr db uid
      ↔ ∃ p ∈ db, p.2.userId = uid ∧ e = docToExpense tsToDateStr p.1 p.2 := by
  simp only [expensesView, List.mem_map, List.mem_mergeSort, List.mem_filter,
    beq_iff_eq]
  constructor
  · rintro ⟨p, ⟨hp, hu⟩, rfl⟩
    exact ⟨p, hp, hu, rfl⟩
  · rintro ⟨p, hp, hu, rfl⟩
    exact ⟨p, ⟨hp, hu⟩, rfl⟩

/-- The documents written by `addDoc` effects in a trace. -/
def addedDocs (es : List Effect) : List FirestoreExpenseDoc :=
  es.filterMap fun e =>
    match e with
    | .addDoc d => some d
    | _ => none

/-- C4: the subscription is scoped to the signed-in user — every expense
in the view is the snapshot image of a stored document whose `userId` is
the current uid; with no user signed in the hook exposes the empty list;
and every document `addExpense` writes for uid carries `userId = uid`. -/
theorem useExpenses_scoped_to_user (tsToDateStr : Int → String)
    (db : List (String × FirestoreExpenseDoc)) (uid : String) (e : Expense)
    (he : e ∈ expensesView tsToDateStr db uid) :
    (∃ docId d, (docId, d) ∈ db ∧ d.userId = uid
        ∧ e = docToExpense tsToDateStr docId d)
    ∧ hookExpenses tsToDateStr none db = []
    ∧ ∀ (urlOf : String → String) (now : Int) (uuidR uuidB : String)
        (input : AddExpenseInput),
        (addedDocs (addExpense urlOf now uuidR uuidB (some uid) input)).all
          (fun d => d.userId == uid) = true := by
  refine ⟨?_, rfl, ?_⟩
  · rcases mem_expensesView.1 he with ⟨p, hp, hu, rfl⟩
    exact ⟨p.1, p.2, hp, hu, rfl⟩
  · intro urlOf now uuidR uuidB input
    cases hr : input.receiptImageFile <;> cases hb : input.billImageFile <;>
      simp [addExpense, addedDocs, hr, hb]

/-- Witness for C4 at a concrete database of two users' documents. -/
theorem useExpenses_scoped_to_user_witness :
    (docToExpense (fun t => toString t) "d1"
        { date := 10, dateOfPayment := none, provider := "p", patient := "q",
          cost := 5, isReimbursed := false, receiptImageUri := none,
          billImageUri := none, createdAt := 1, userId := "alice" }
      ∈ expensesView (fun t => toString t)
        [("d1",
          { date := 10, dateOfPayment := none, provider := "p", patient := "q",
            cost := 5, isReimbursed := false, receiptImageUri := none,
            billImageUri := none, createdAt := 1, userId := "alice" }),
         ("d2",
          { date := 11, dateOfPayment := none, provider := "r", patient := "s",
            cost := 7, isReimbursed := true, receiptImageUri := none,
            billImageUri := none, createdAt := 2, userId := "bob" })] "alice")
    ∧ ((∃ docId d,
          (docId, d)
              ∈ [("d1",
                  ({ date := 10, dateOfPayment := none, provider := "p",
                     patient := "q", cost := 5, isReimbursed := false,
                     receiptImageUri := none, billImageUri := none,
                     createdAt := 1, userId := "alice" } : FirestoreExpenseDoc)),
                 ("d2",
                  { date := 11, dateOfPayment := none, provider := "r",
                    patient := "s", cost := 7, isReimbursed := true,
                    receiptImageUri := none, billImageUri := none,
                    createdAt := 2, userId := "bob" })]
            ∧ d.userId = "alice"
            ∧ docToExpense (fun t => toString t) "d1"
                { date := 10, dateOfPayment := none, provider := "p",
                  patient := "q", cost := 5, isReimbursed := false,
                  receiptImageUri := none, billImageUri := none,
                  createdAt := 1, userId := "alice" }
              = docToExpense (fun t => toString t) docId d)
        ∧ hookExpenses (fun t => toString t) none
            [("d1",
              { date := 10, dateOfPayment := none, provider := "p",
                patient := "q", cost := 5, isReimbursed := false,
                receiptImageUri := none, billImageUri := none,
                createdAt := 1, userId := "alice" }),
             ("d2",
              { date := 11, dateOfPayment := none, provider := "r",
                patient := "s", cost := 7, isReimbursed := true,
                receiptImageUri := none, billImageUri := none,
                createdAt := 2, userId := "bob" })] = []
        ∧ ∀ (urlOf : String → String) (now : Int) (uuidR uuidB : String)
            (input : AddExpenseInput),
            (addedDocs (addExpense urlOf now uuidR uuidB (some "alice")
                input)).all (fun d => d.userId == "alice") = true) := by
  have hmem : docToExpense (fun t => toString t) "d1"
      { date := 10, dateOfPayment := none, provider := "p", patient := "q",
        cost := 5, isReimbursed := false, receiptImageUri := none,
        billImageUri := none, createdAt := 1, userId := "alice" }
      ∈ expensesView (fun t => toString t)
        [("d1",
          { date := 10, dateOfPayment := none, provider := "p", patient := "q",
            cost := 5, isReimbursed := false, receiptImageUri := none,
            billImageUri := none, createdAt := 1, userId := "alice" }),
         ("d2",
          { date := 11, dateOfPayment := none, provider := "r", patient := "s",
            cost := 7, isReimbursed := true, receiptImageUri := none,
            billImageUri := none, createdAt := 2, userId := "bob" })] "alice" :=
    mem_expensesView.2 ⟨_, List.mem_cons_self _ _, rfl, rfl⟩
  exact ⟨hmem, useExpenses_scoped_to_user _ _ _ _ hmem⟩

/-- C5: with a user signed in, the trace of `addExpense` is a prefix of
storage interactions followed by the single document write (and a
toast): every attached image is uploaded, every upload precedes the
write, the written document only references download URLs of paths
uploaded in that prefix, and an absent attachment is written as `null`. -/
theorem addExpense_uploads_before_write (urlOf : String → String)
    (now : Int) (uuidR uuidB uid : String) (input : AddExpenseInput) :
    ∃ pre newDoc,
      addExpense urlOf now uuidR uuidB (some uid) input
          = pre ++ [Effect.addDoc newDoc, Effect.toast "Expense Added"]
      ∧ (∀ x ∈ pre, ∃ p,
          x = Effect.uploadBytes p ∨ x = Effect.getDownloadURL p)
      ∧ (input.receiptImageFile = none → newDoc.receiptImageUri = none)
      ∧ (input.billImageFile = none → newDoc.billImageUri = none)
      ∧ (∀ f, input.receiptImageFile = some f →
          Effect.uploadBytes
              (receiptPath uid uuidR (f.name.getD "receipt.jpg")) ∈ pre)
      ∧ (∀ f, input.billImageFile = some f →
          Effect.uploadBytes (billPath uid uuidB (f.name.getD "bill.jpg"))
            ∈ pre)
      ∧ (∀ u, newDoc.receiptImageUri = some u →
          ∃ p, Effect.uploadBytes p ∈ pre ∧ u = urlOf p)
      ∧ (∀ u, newDoc.billImageUri = some u →
          ∃ p, Effect.uploadBytes p ∈ pre ∧ u = urlOf p) := by
  cases hr : input.receiptImageFile with
  | none =>
    cases hb : input.billImageFile with
    | none =>
      refine ⟨[],
        { date := input.date, dateOfPayment := input.dateOfPayment,
          provider := input.provider, patient := input.patient,
          cost := input.cost,
          isReimbursed := input.isReimbursedInput.getD false,
          receiptImageUri := jsOrNone none, billImageUri := jsOrNone none,
          createdAt := now, userId := uid },
        by simp [addExpense, hr, hb], ?_, ?_, ?_, ?_, ?_, ?_, ?_⟩
        <;> simp [jsOrNone, hr, hb]
    | some g =>
      refine ⟨[Effect.uploadBytes (billPath uid uuidB (g.name.getD "bill.jpg")),
          Effect.getDownloadURL (billPath uid uuidB (g.name.getD "bill.jpg"))],
        { date := input.date, dateOfPayment := input.dateOfPayment,
          provider := input.provider, patient := input.patient,
          cost := input.cost,
          isReimbursed := input.isReimbursedInput.getD false,
          receiptImageUri := jsOrNone none,
          billImageUri :=
            jsOrNone (some (urlOf (billPath uid uuidB (g.name.getD "bill.jpg")))),
          createdAt := now, userId := uid },
        by simp [addExpense, hr, hb], ?_, ?_, ?_, ?_, ?_, ?_, ?_⟩ <;>
        simp [jsOrNone, hr, hb]
  | some f =>
    cases hb : input.billImageFile with
    | none =>
      refine ⟨[Effect.uploadBytes
            (receiptPath uid uuidR (f.name.getD "receipt.jpg")),
          Effect.getDownloadURL
            (receiptPath uid uuidR (f.name.getD "receipt.jpg"))],
        { date := input.date, dateOfPayment := input.dateOfPayment,
          provider := input.provider, patient := input.patient,
          cost := input.cost,
          isReimbursed := input.isReimbursedInput.getD false,
          receiptImageUri :=
            jsOrNone
              (some (urlOf (receiptPath uid uuidR (f.name.getD "receipt.jpg")))),
          billImageUri := jsOrNone none,
          createdAt := now, userId := uid },
        by simp [addExpense, hr, hb], ?_, ?_, ?_, ?_, ?_, ?_, ?_⟩ <;>
        simp [jsOrNone, hr, hb]
    | some g =>
      refine ⟨[Effect.uploadBytes
            (receiptPath uid uuidR (f.name.getD "receipt.jpg")),
          Effect.getDownloadURL
            (receiptPath uid uuidR (f.name.getD "receipt.jpg")),
          Effect.uploadBytes (billPath uid uuidB (g.name.getD "bill.jpg")),
          Effect.getDownloadURL (billPath uid uuidB (g.name.getD "bill.jpg"))],
        { date := input.date, dateOfPayment := input.dateOfPayment,
          provider := input.provider, patient := input.patient,
          cost := input.cost,
          isReimbursed := input.isReimbursedInput.getD false,
          receiptImageUri :=
            jsOrNone
              (some (urlOf (receiptPath uid uuidR (f.name.getD "receipt.jpg")))),
          billImageUri :=
            jsOrNone (some (urlOf (billPath uid uuidB (g.name.getD "bill.jpg")))),
          createdAt := now, userId := uid },
        by simp [addExpense, hr, hb], ?_, ?_, ?_, ?_, ?_, ?_, ?_⟩ <;>
        simp [jsOrNone, hr, hb]

/-- C8: with nobody signed in, `addExpense`, `updateExpense` and
`deleteExpense` each produce only the "Not Authenticated" toast — no
storage upload, no database write — and leave the persisted backend
state unchanged. -/
theorem unauthenticated_mutations_are_noops (urlOf : String → String)
    (now : Int) (uuidR uuidB : String) (expenses : List Expense)
    (id : String) (input : AddExpenseInput) (uinput : UpdateExpenseInput)
    (s : BackendState) :
    addExpense urlOf now uuidR uuidB none input
        = [Effect.toast "Not Authenticated"]
    ∧ updateExpense urlOf uuidR uuidB none expenses id uinput
        = [Effect.toast "Not Authenticated"]
    ∧ deleteExpense none expenses id = [Effect.toast "Not Authenticated"]
    ∧ applyEffects s (addExpense urlOf now uuidR uuidB none input) = s
    ∧ applyEffects s (updateExpense urlOf uuidR uuidB none expenses id uinput)
        = s
    ∧ applyEffects s (deleteExpense none expenses id) = s := by
  refine ⟨rfl, rfl, rfl, rfl, rfl, rfl⟩

/-- C9: the update object `updateExpense` writes never contains `userId`
or `createdAt` (the merged document keeps the stored values); the merged
`dateOfPayment` is kept when the input is `undefined`, cleared when
`null`, set when a date; and the remaining fields — date, provider,
patient, cost, isReimbursed and both image URIs — are overwritten with
values determined by the call's input (and loaded list), independent of
the stored document. -/
theorem updateExpense_field_semantics (urlOf : String → String)
    (uuidR uuidB uid : String) (expenses : List Expense) (id : String)
    (input : UpdateExpenseInput) :
    ∃ pre flds,
      updateExpense urlOf uuidR uuidB (some uid) expenses id input
          = pre ++ [Effect.updateDoc id flds, Effect.toast "Expense Updated"]
      ∧ ∀ d : FirestoreExpenseDoc,
          (applyUpdate d flds).userId = d.userId
          ∧ (applyUpdate d flds).createdAt = d.createdAt
          ∧ (applyUpdate d flds).dateOfPayment
              = (match input.dateOfPayment with
                 | none => d.dateOfPayment
                 | some v => v)
          ∧ (applyUpdate d flds).date = input.date
          ∧ (applyUpdate d flds).provider = input.provider
          ∧ (applyUpdate d flds).patient = input.patient
          ∧ (applyUpdate d flds).cost = input.cost
          ∧ (applyUpdate d flds).isReimbursed
              = input.isReimbursedInput.getD
                  (match expenses.find? (fun e2 => e2.id == id) with
                   | some e2 => e2.isReimbursed
                   | none => false)
          ∧ (applyUpdate d flds).receiptImageUri
              = (match input.receiptImageFile with
                 | some f =>
                   some (urlOf (receiptPath uid uuidR (f.name.getD "receipt.jpg")))
                 | none => input.receiptImageUri)
          ∧ (applyUpdate d flds).billImageUri
              = (match input.billImageFile with
                 | some f =>
                   some (urlOf (billPath uid uuidB (f.name.getD "bill.jpg")))
                 | none => input.billImageUri) := by
  cases hr : input.receiptImageFile with
  | none =>
    cases hb : input.billImageFile with
    | none =>
      refine ⟨[],
        { date := some input.date, dateOfPayment := input.dateOfPayment,
          provider := some input.provider, patient := some input.patient,
          cost := some input.cost,
          isReimbursed := some (input.isReimbursedInput.getD
            (match expenses.find? (fun exp => exp.id == id) with
             | some e => e.isReimbursed
             | none => false)),
          receiptImageUri := some input.receiptImageUri,
          billImageUri := some input.billImageUri },
        by simp [updateExpense, hr, hb], fun d => ?_⟩
      simp [applyUpdate, hr, hb]
    | some g =>
      refine ⟨deleteOldImage
            ((expenses.find? (fun exp => exp.id == id)).bind (·.billImageUri))
          ++ [Effect.uploadBytes (billPath uid uuidB (g.name.getD "bill.jpg")),
            Effect.getDownloadURL (billPath uid uuidB (g.name.getD "bill.jpg"))],
        { date := some input.date, dateOfPayment := input.dateOfPayment,
          provider := some input.provider, patient := some input.patient,
          cost := some input.cost,
          isReimbursed := some (input.isReimbursedInput.getD
            (match expenses.find? (fun exp => exp.id == id) with
             | some e => e.isReimbursed
             | none => false)),
          receiptImageUri := some input.receiptImageUri,
          billImageUri :=
            some (some (urlOf (billPath uid uuidB (g.name.getD "bill.jpg")))) },
        by simp [updateExpense, hr, hb], fun d => ?_⟩
      simp [applyUpdate, hr, hb]
  | some f =>
    cases hb : input.billImageFile with
    | none =>
      refine ⟨deleteOldImage
            ((expenses.find? (fun exp => exp.id == id)).bind (·.receiptImageUri))
          ++ [Effect.uploadBytes
              (receiptPath uid uuidR (f.name.getD "receipt.jpg")),
            Effect.getDownloadURL
              (receiptPath uid uuidR (f.name.getD "receipt.jpg"))],
        { date := some input.date, dateOfPayment := input.dateOfPayment,
          provider := some input.provider, patient := some input.patient,
          cost := some input.cost,
          isReimbursed := some (input.isReimbursedInput.getD
            (match expenses.find? (fun exp => exp.id == id) with
             | some e => e.isReimbursed
             | none => false)),
          receiptImageUri :=
            some (some (urlOf (receiptPath uid uuidR (f.name.getD "receipt.jpg")))),
          billImageUri := some input.billImageUri },
        by simp [updateExpense, hr, hb], fun d => ?_⟩
      simp [applyUpdate, hr, hb]
    | some g =>
      refine ⟨deleteOldImage
            ((expenses.find? (fun exp => exp.id == id)).bind (·.receiptImageUri))
          ++ [Effect.uploadBytes
              (receiptPath uid uuidR (f.name.getD "receipt.jpg")),
            Effect.getDownloadURL
              (receiptPath uid uuidR (f.name.getD "receipt.jpg"))]
          ++ (deleteOldImage
              ((expenses.find? (fun exp => exp.id == id)).bind (·.billImageUri))
            ++ [Effect.uploadBytes (billPath uid uuidB (g.name.getD "bill.jpg")),
              Effect.getDownloadURL
                (billPath uid uuidB (g.name.getD "bill.jpg"))]),
        { date := some input.date, dateOfPayment := input.dateOfPayment,
          provider := some input.provider, patient := some input.patient,
          cost := some input.cost,
          isReimbursed := some (input.isReimbursedInput.getD
            (match expenses.find? (fun exp => exp.id == id) with
             | some e => e.isReimbursed
             | none => false)),
          receiptImageUri :=
            some (some (urlOf (receiptPath uid uuidR (f.name.getD "receipt.jpg")))),
          billImageUri :=
            some (some (urlOf (billPath uid uuidB (g.name.getD "bill.jpg")))) },
        by simp [updateExpense, hr, hb], fun d => ?_⟩
      simp [applyUpdate, hr, hb]

/-- In an association list with distinct keys, a key determines its
value. -/
theorem assoc_key_unique {l : List (String × FirestoreExpenseDoc)}
    (h : (l.map Prod.fst).Nodup) {k : String} {v w : FirestoreExpenseDoc}
    (hv : (k, v) ∈ l) (hw : (k, w) ∈ l) : v = w := by
  induction l with
  | nil => cases hv
  | cons p t ih =>
    rw [List.map_cons, List.nodup_cons] at h
    rcases List.mem_cons.1 hv with hv1 | hv2 <;>
      rcases List.mem_cons.1 hw with hw1 | hw2
    · rw [← hv1] at hw1
      exact (Prod.mk.injEq _ _ _ _ ▸ congrArg id hw1.symm).2
    · exact absurd (List.mem_map_of_mem Prod.fst hw2)
        (by rw [← hv1] at h; exact h.1)
    · exact absurd (List.mem_map_of_mem Prod.fst hv2)
        (by rw [← hw1] at h; exact h.1)
    · exact ih h.2 hv2 hw2

/-- With distinct document ids, `find?` by id on the subscribed view
returns exactly the snapshot image of the stored document with that id
(when it belongs to the user). -/
theorem find?_expensesView (tsToDateStr : Int → String)
    {db : List (String × FirestoreExpenseDoc)} {uid id : String}
    {d : FirestoreExpenseDoc} (hids : (db.map Prod.fst).Nodup)
    (hd : (id, d) ∈ db) (huid : d.userId = uid) :
    (expensesView tsToDateStr db uid).find? (fun e => e.id == id)
      = some (docToExpense tsToDateStr id d) := by
  have hmem : docToExpense tsToDateStr id d ∈ expensesView tsToDateStr db uid :=
    mem_expensesView.2 ⟨(id, d), hd, huid, rfl⟩
  have hsome :
      ((expensesView tsToDateStr db uid).find? (fun e => e.id == id)).isSome := by
    rw [List.find?_isSome]
    exact ⟨_, hmem, by simp [docToExpense]⟩
  obtain ⟨y, hy⟩ := Option.isSome_iff_exists.1 hsome
  have hy_mem := List.mem_of_find?_eq_some hy
  have hy_p : y.id = id := by simpa using List.find?_some hy
  rcases mem_expensesView.1 hy_mem with ⟨q, hq, hqu, rfl⟩
  have hq1 : q.1 = id := hy_p
  have hq' : (id, q.2) ∈ db := by rw [← hq1]; exact hq
  have hq2 : q.2 = d := assoc_key_unique hids hq' hd
  rw [hy, hq1, hq2]

/-- Updating one document's fields does not change the id column. -/
theorem updated_keys (db : List (String × FirestoreExpenseDoc)) (id : String)
    (u : UpdateFields) :
    ((db.map fun p => if p.1 = id then (p.1, applyUpdate p.2 u) else p).map
      Prod.fst) = db.map Prod.fst := by
  rw [List.map_map]
  refine List.map_congr_left fun p _ => ?_
  by_cases hp : p.1 = id <;> simp [hp]

/-- The updated document stays in the updated database. -/
theorem mem_updated {db : List (String × FirestoreExpenseDoc)} {id : String}
    {d : FirestoreExpenseDoc} (hd : (id, d) ∈ db) (u : UpdateFields) :
    (id, applyUpdate d u)
      ∈ db.map fun p => if p.1 = id then (p.1, applyUpdate p.2 u) else p := by
  have := List.mem_map_of_mem
    (fun p : String × FirestoreExpenseDoc =>
      if p.1 = id then (p.1, applyUpdate p.2 u) else p) hd
  simpa using this

/-- A single-field `isReimbursed` update changes that flag and nothing
else. -/
theorem applyUpdate_isReimbursed_only (d' : FirestoreExpenseDoc) (b : Bool) :
    applyUpdate d' { isReimbursed := some b }
      = { d' with isReimbursed := b } := rfl

/-- Flipping `isReimbursed` to `!d.isReimbursed` and then back to
`d.isReimbursed` restores the document. -/
theorem double_flip_restores (d : FirestoreExpenseDoc) :
    applyUpdate (applyUpdate d { isReimbursed := some (!d.isReimbursed) })
      { isReimbursed := some d.isReimbursed } = d := by
  cases d
  rfl

/-- C6: with the view in sync with a database whose document ids are
distinct, `toggleReimbursement` on a loaded id writes a single-field
update negating that document's `isReimbursed` flag and touching no
other field; with no signed-in user, or an id not among the loaded
expenses, it performs no effect at all; and applying it twice (with the
view refreshed in between, as `onSnapshot` does) restores the backend
state exactly. -/
theorem toggleReimbursement_correct (tsToDateStr : Int → String)
    (st : List String) (db : List (String × FirestoreExpenseDoc))
    (uid id : String) (d : FirestoreExpenseDoc)
    (hids : (db.map Prod.fst).Nodup) (hd : (id, d) ∈ db)
    (huid : d.userId = uid) :
    toggleReimbursement none (expensesView tsToDateStr db uid) id = []
    ∧ (∀ mid : String,
        (expensesView tsToDateStr db uid).find? (fun e => e.id == mid) = none →
        toggleReimbursement (some uid) (expensesView tsToDateStr db uid) mid
          = [])
    ∧ toggleReimbursement (some uid) (expensesView tsToDateStr db uid) id
        = [Effect.updateDoc id { isReimbursed := some (!d.isReimbursed) }]
    ∧ (∀ d' : FirestoreExpenseDoc,
        applyUpdate d' { isReimbursed := some (!d.isReimbursed) }
          = { d' with isReimbursed := !d.isReimbursed })
    ∧ applyEffects
        (applyEffects ⟨db, st⟩
          (toggleReimbursement (some uid) (expensesView tsToDateStr db uid) id))
        (toggleReimbursement (some uid)
          (expensesView tsToDateStr
            (applyEffects ⟨db, st⟩
              (toggleReimbursement (some uid)
                (expensesView tsToDateStr db uid) id)).db uid)
          id)
        = ⟨db, st⟩ := by
  have hfind1 := find?_expensesView tsToDateStr hids hd huid
  have htr1 : toggleReimbursement (some uid) (expensesView tsToDateStr db uid)
      id = [Effect.updateDoc id { isReimbursed := some (!d.isReimbursed) }] := by
    simp [toggleReimbursement, hfind1, docToExpense]
  have hs1 : applyEffects ⟨db, st⟩
      (toggleReimbursement (some uid) (expensesView tsToDateStr db uid) id)
      = ⟨db.map fun p =>
          if p.1 = id then
            (p.1, applyUpdate p.2 { isReimbursed := some (!d.isReimbursed) })
          else p, st⟩ := by
    rw [htr1]; rfl
  have hd1 : (id, applyUpdate d { isReimbursed := some (!d.isReimbursed) })
      ∈ (db.map fun p =>
          if p.1 = id then
            (p.1, applyUpdate p.2 { isReimbursed := some (!d.isReimbursed) })
          else p) :=
    mem_updated hd _
  have hids1 : (((db.map fun p =>
      if p.1 = id then
        (p.1, applyUpdate p.2 { isReimbursed := some (!d.isReimbursed) })
      else p).map Prod.fst)).Nodup := by
    rw [updated_keys]; exact hids
  have hfind2 := find?_expensesView tsToDateStr hids1 hd1
    (show (applyUpdate d { isReimbursed := some (!d.isReimbursed) }).userId
        = uid from huid)
  have htr2 : toggleReimbursement (some uid)
      (expensesView tsToDateStr
        (db.map fun p =>
          if p.1 = id then
            (p.1, applyUpdate p.2 { isReimbursed := some (!d.isReimbursed) })
          else p) uid)
      id = [Effect.updateDoc id { isReimbursed := some d.isReimbursed }] := by
    simp only [toggleReimbursement]
    rw [hfind2]
    simp [docToExpense, applyUpdate]
  refine ⟨rfl, ?_, htr1, fun d' => applyUpdate_isReimbursed_only d' _, ?_⟩
  · intro mid hm
    simp [toggleReimbursement, hm]
  · rw [hs1, htr2]
    show (⟨(db.map fun p =>
        if p.1 = id then
          (p.1, applyUpdate p.2 { isReimbursed := some (!d.isReimbursed) })
        else p).map fun p =>
          if p.1 = id then
            (p.1, applyUpdate p.2 { isReimbursed := some d.isReimbursed })
          else p, st⟩ : BackendState) = ⟨db, st⟩
    rw [List.map_map]
    have : db.map ((fun p : String × FirestoreExpenseDoc =>
        if p.1 = id then
          (p.1, applyUpdate p.2 { isReimbursed := some d.isReimbursed })
        else p) ∘ fun p =>
          if p.1 = id then
            (p.1, applyUpdate p.2 { isReimbursed := some (!d.isReimbursed) })
          else p) = db.map fun p => p := by
      refine List.map_congr_left fun p hp => ?_
      by_cases hpid : p.1 = id
      · have hpd : p.2 = d := by
          refine assoc_key_unique hids ?_ hd
          rw [← hpid]
          exact hp
        obtain ⟨p1, p2⟩ := p
        have hp1 : p1 = id := hpid
        have hp2 : p2 = d := hpd
        subst hp1
        subst hp2
        simp [double_flip_restores]
      · simp [Function.comp_apply, hpid]
    rw [this, List.map_id']

/-- A concrete stored document used to exercise `toggleReimbursement`. -/
def toggleDemoDoc : FirestoreExpenseDoc :=
  { date := 5, dateOfPayment := none, provider := "p", patient := "q",
    cost := 3, isReimbursed := false, receiptImageUri := none,
    billImageUri := none, createdAt := 1, userId := "u1" }

/-- A concrete one-document database for the toggle witness. -/
def toggleDemoDB : List (String × FirestoreExpenseDoc) :=
  [("e1", toggleDemoDoc)]

/-- Witness for C6 on the concrete database `toggleDemoDB`. -/
theorem toggleReimbursement_correct_witness :
    ((toggleDemoDB.map Prod.fst).Nodup
      ∧ ("e1", toggleDemoDoc) ∈ toggleDemoDB
      ∧ toggleDemoDoc.userId = "u1")
    ∧ (toggleReimbursement none
          (expensesView (fun t => toString t) toggleDemoDB "u1") "e1" = []
      ∧ (∀ mid : String,
          (expensesView (fun t => toString t) toggleDemoDB "u1").find?
              (fun e => e.id == mid) = none →
          toggleReimbursement (some "u1")
            (expensesView (fun t => toString t) toggleDemoDB "u1") mid = [])
      ∧ toggleReimbursement (some "u1")
            (expensesView (fun t => toString t) toggleDemoDB "u1") "e1"
          = [Effect.updateDoc "e1"
              { isReimbursed := some (!toggleDemoDoc.isReimbursed) }]
      ∧ (∀ d' : FirestoreExpenseDoc,
          applyUpdate d' { isReimbursed := some (!toggleDemoDoc.isReimbursed) }
            = { d' with isReimbursed := !toggleDemoDoc.isReimbursed })
      ∧ applyEffects
          (applyEffects ⟨toggleDemoDB, []⟩
            (toggleReimbursement (some "u1")
              (expensesView (fun t => toString t) toggleDemoDB "u1") "e1"))
          (toggleReimbursement (some "u1")
            (expensesView (fun t => toString t)
              (applyEffects ⟨toggleDemoDB, []⟩
                (toggleReimbursement (some "u1")
                  (expensesView (fun t => toString t) toggleDemoDB "u1")
                  "e1")).db "u1")
            "e1")
          = ⟨toggleDemoDB, []⟩) :=
  ⟨⟨by simp [toggleDemoDB], by simp [toggleDemoDB], rfl⟩,
   toggleReimbursement_correct (fun t => toString t) [] toggleDemoDB "u1" "e1"
     toggleDemoDoc (by simp [toggleDemoDB]) (by simp [toggleDemoDB]) rfl⟩

/-! ## Expense form (`src/components/ExpenseForm.tsx`) -/

/-- Structured output of the AI extraction flow
(`src/ai/flows/extract-data-from-receipt.ts`, `ExtractDataOutputSchema`):
all five fields are present, date strings in `YYYY-MM-DD`. -/
structure ExtractDataOutput where
  date : String
  provider : String
  patient : String
  cost : Rat
  dateOfPayment : String
deriving DecidableEq, Repr

/-- A calendar date as built by `new Date(year, monthIndex, day)`;
`monthIndex` is 0-based as in JS. -/
structure LocalDate where
  year : Int
  monthIndex : Int
  day : Int
deriving DecidableEq, Repr

/-- Longest prefix of decimal digits. -/
def leadingDigits : List Char → List Char
  | [] => []
  | c :: cs => if c.isDigit then c :: leadingDigits cs else []

/-- Value of a digit string. -/
def digitsToNat (ds : List Char) : Nat :=
  ds.foldl (fun n c => 10 * n + (c.toNat - '0'.toNat)) 0

/-- JS `parseInt(s, 10)`: skip leading whitespace, read an optional sign
and then the longest digit prefix; `NaN` (here `none`) when no digit
follows. -/
def parseIntJS (s : String) : Option Int :=
  let cs := s.toList.dropWhile fun c => c == ' ' || c == '\t' || c == '\n'
  match cs with
  | '-' :: rest =>
    let ds := leadingDigits rest
    if ds.isEmpty then none else some (-(digitsToNat ds : Int))
  | '+' :: rest =>
    let ds := leadingDigits rest
    if ds.isEmpty then none else some (digitsToNat ds : Int)
  | _ =>
    let ds := leadingDigits cs
    if ds.isEmpty then none else some (digitsToNat ds : Int)

/-- `parseDateStringToLocal` (`ExpenseForm.tsx` lines 42-55): split on
`-`, expect exactly three parts, parse year/month/day with
`parseInt(_, 10)` and build `new Date(year, month - 1, day)`;
`undefined` otherwise. -/
def parseDateStringToLocal : Option String → Option LocalDate
  | some s =>
    (match s.splitOn "-" with
     | [ys, ms, ds] =>
       match parseIntJS ys, parseIntJS ms, parseIntJS ds with
       | some y, some m, some dd => some ⟨y, m - 1, dd⟩
       | _, _, _ => none
     | _ => none)
  | none => none

/-- The form fields that AI extraction can populate. -/
structure FormValues where
  date : Option LocalDate
  dateOfPayment : Option LocalDate
  provider : String
  patient : String
  cost : Rat
deriving DecidableEq, Repr

/-- `react-hook-form`'s `dirtyFields` for those fields: `true` when the
user has edited the field. -/
structure DirtyFields where
  date : Bool
  dateOfPayment : Bool
  provider : Bool
  patient : Bool
  cost : Bool
deriving DecidableEq, Repr

/-- The document kind a scan came from. -/
inductive DocumentType where
  | receipt
  | bill
deriving DecidableEq, Repr

/-- `if (extracted.date && !dirtyFields.date) { const parsedDate = ...;
if (parsedDate) form.setValue("date", parsedDate) }` — a string is
truthy iff non-empty. -/
def populateDate (extracted : ExtractDataOutput) (dirty : DirtyFields)
    (form : FormValues) : FormValues :=
  if extracted.date != "" && !dirty.date then
    match parseDateStringToLocal (some extracted.date) with
    | some pd => { form with date := some pd }
    | none => form
  else form

/-- The `dateOfPayment` population step, additionally gated on the
document being a receipt. -/
def populatePaymentDate (extracted : ExtractDataOutput)
    (dirty : DirtyFields) (docType : DocumentType) (form : FormValues) :
    FormValues :=
  if extracted.dateOfPayment != "" && !dirty.dateOfPayment
      && docType == DocumentType.receipt then
    match parseDateStringToLocal (some extracted.dateOfPayment) with
    | some pd => { form with dateOfPayment := some pd }
    | none => form
  else form

/-- `if (extracted.provider && !dirtyFields.provider) setValue(...)`. -/
def populateProvider (extracted : ExtractDataOutput) (dirty : DirtyFields)
    (form : FormValues) : FormValues :=
  if extracted.provider != "" && !dirty.provider then
    { form with provider := extracted.provider }
  else form

/-- `if (extracted.patient && !dirtyFields.patient) setValue(...)`. -/
def populatePatient (extracted : ExtractDataOutput) (dirty : DirtyFields)
    (form : FormValues) : FormValues :=
  if extracted.patient != "" && !dirty.patient then
    { form with patient := extracted.patient }
  else form

/-- `if (extracted.cost && extracted.cost > 0 && !dirtyFields.cost)
setValue(...)` — a number is truthy iff non-zero. -/
def populateCost (extracted : ExtractDataOutput) (dirty : DirtyFields)
    (form : FormValues) : FormValues :=
  if extracted.cost != 0 && decide (0 < extracted.cost) && !dirty.cost then
    { form with cost := extracted.cost }
  else form

/-- `handleAIDataPopulation` (`ExpenseForm.tsx` lines 169-188): the five
sequential population steps, in source order. -/
def handleAIDataPopulation (extracted : ExtractDataOutput)
    (dirty : DirtyFields) (docType : DocumentType) (form : FormValues) :
    FormValues :=
  populateCost extracted dirty
    (populatePatient extracted dirty
      (populateProvider extracted dirty
        (populatePaymentDate extracted dirty docType
          (populateDate extracted dirty form))))

/-- The date step leaves the other fields alone. -/
theorem populateDate_frame (ex : ExtractDataOutput) (dy : DirtyFields)
    (f : FormValues) :
    (populateDate ex dy f).dateOfPayment = f.dateOfPayment
    ∧ (populateDate ex dy f).provider = f.provider
    ∧ (populateDate ex dy f).patient = f.patient
    ∧ (populateDate ex dy f).cost = f.cost := by
  unfold populateDate
  split
  · split <;> exact ⟨rfl, rfl, rfl, rfl⟩
  · exact ⟨rfl, rfl, rfl, rfl⟩

/-- The payment-date step leaves the other fields alone. -/
theorem populatePaymentDate_frame (ex : ExtractDataOutput)
    (dy : DirtyFields) (dt : DocumentType) (f : FormValues) :
    (populatePaymentDate ex dy dt f).date = f.date
    ∧ (populatePaymentDate ex dy dt f).provider = f.provider
    ∧ (populatePaymentDate ex dy dt f).patient = f.patient
    ∧ (populatePaymentDate ex dy dt f).cost = f.cost := by
  unfold populatePaymentDate
  split
  · split <;> exact ⟨rfl, rfl, rfl, rfl⟩
  · exact ⟨rfl, rfl, rfl, rfl⟩

/-- The provider step leaves the date fields alone. -/
theorem populateProvider_frame (ex : ExtractDataOutput) (dy : DirtyFields)
    (f : FormValues) :
    (populateProvider ex dy f).date = f.date
    ∧ (populateProvider ex dy f).dateOfPayment = f.dateOfPayment
    ∧ (populateProvider ex dy f).patient = f.patient
    ∧ (populateProvider ex dy f).cost = f.cost := by
  unfold populateProvider
  split <;> exact ⟨rfl, rfl, rfl, rfl⟩

/-- The patient step leaves the other fields alone. -/
theorem populatePatient_frame (ex : ExtractDataOutput) (dy : DirtyFields)
    (f : FormValues) :
    (populatePatient ex dy f).date = f.date
    ∧ (populatePatient ex dy f).dateOfPayment = f.dateOfPayment
    ∧ (populatePatient ex dy f).provider = f.provider
    ∧ (populatePatient ex dy f).cost = f.cost := by
  unfold populatePatient
  split <;> exact ⟨rfl, rfl, rfl, rfl⟩

/-- The cost step leaves the other fields alone. -/
theorem populateCost_frame (ex : ExtractDataOutput) (dy : DirtyFields)
    (f : FormValues) :
    (populateCost ex dy f).date = f.date
    ∧ (populateCost ex dy f).dateOfPayment = f.dateOfPayment
    ∧ (populateCost ex dy f).provider = f.provider
    ∧ (populateCost ex dy f).patient = f.patient := by
  unfold populateCost
  split <;> exact ⟨rfl, rfl, rfl, rfl⟩

/-- C7 counterexample: a successful extraction with a non-empty provider
("Acme Clinic") does NOT populate the provider field when the user has
already edited it (`dirtyFields.provider` is set): the form keeps "Old
Provider", contradicting the claim that every non-empty extracted value
is written to the corresponding field. -/
theorem handleAIDataPopulation_counterexample :
    (handleAIDataPopulation
        { date := "2024-03-15", provider := "Acme Clinic", patient := "Jo",
          cost := 20, dateOfPayment := "2024-03-15" }
        { date := false, dateOfPayment := false, provider := true,
          patient := false, cost := false }
        DocumentType.receipt
        { date := none, dateOfPayment := none, provider := "Old Provider",
          patient := "", cost := 0 }).provider = "Old Provider"
    ∧ ("Acme Clinic" : String) ≠ ""
    ∧ ("Acme Clinic" : String) ≠ "Old Provider" := by
  refine ⟨?_, by decide, by decide⟩
  unfold handleAIDataPopulation
  rw [(populateCost_frame _ _ _).2.2.1, (populatePatient_frame _ _ _).2.2.1]
  rw [show ∀ f : FormValues, populateProvider
      { date := "2024-03-15", provider := "Acme Clinic", patient := "Jo",
        cost := 20, dateOfPayment := "2024-03-15" }
      { date := false, dateOfPayment := false, provider := true,
        patient := false, cost := false } f = f from fun f => by
    unfold populateProvider
    rfl]
  rw [(populatePaymentDate_frame _ _ _ _).2.1, (populateDate_frame _ _ _).2.1]

/-- C7 (amended): after a successful extraction, each of date, provider,
patient, cost (and, for receipts, dateOfPayment) is populated from the
extraction output, provided the user has not already edited that field
(its dirty flag is unset); the date fields additionally require the
extracted string to parse as a date, and cost must be positive. -/
theorem handleAIDataPopulation_populates (extracted : ExtractDataOutput)
    (dirty : DirtyFields) (docType : DocumentType) (form : FormValues) :
    (∀ pd, extracted.date ≠ "" → dirty.date = false →
      parseDateStringToLocal (some extracted.date) = some pd →
      (handleAIDataPopulation extracted dirty docType form).date = some pd)
    ∧ (∀ pd, docType = DocumentType.receipt →
        extracted.dateOfPayment ≠ "" → dirty.dateOfPayment = false →
        parseDateStringToLocal (some extracted.dateOfPayment) = some pd →
        (handleAIDataPopulation extracted dirty docType form).dateOfPayment
          = some pd)
    ∧ (extracted.provider ≠ "" → dirty.provider = false →
        (handleAIDataPopulation extracted dirty docType form).provider
          = extracted.provider)
    ∧ (extracted.patient ≠ "" → dirty.patient = false →
        (handleAIDataPopulation extracted dirty docType form).patient
          = extracted.patient)
    ∧ (0 < extracted.cost → dirty.cost = false →
        (handleAIDataPopulation extracted dirty docType form).cost
          = extracted.cost) := by
  unfold handleAIDataPopulation
  refine ⟨?_, ?_, ?_, ?_, ?_⟩
  · intro pd h1 h2 h3
    rw [(populateCost_frame _ _ _).1, (populatePatient_frame _ _ _).1,
      (populateProvider_frame _ _ _).1, (populatePaymentDate_frame _ _ _ _).1]
    have hc : (extracted.date != "" && !dirty.date) = true := by simp [h1, h2]
    simp [populateDate, hc, h3]
  · intro pd hdt h1 h2 h3
    rw [(populateCost_frame _ _ _).2.1, (populatePatient_frame _ _ _).2.1,
      (populateProvider_frame _ _ _).2.1]
    have hc : (extracted.dateOfPayment != "" && !dirty.dateOfPayment
        && docType == DocumentType.receipt) = true := by simp [h1, h2, hdt]
    simp [populatePaymentDate, hc, h3]
  · intro h1 h2
    rw [(populateCost_frame _ _ _).2.2.1, (populatePatient_frame _ _ _).2.2.1]
    have hc : (extracted.provider != "" && !dirty.provider) = true := by
      simp [h1, h2]
    simp [populateProvider, hc]
  · intro h1 h2
    rw [(populateCost_frame _ _ _).2.2.2]
    have hc : (extracted.patient != "" && !dirty.patient) = true := by
      simp [h1, h2]
    simp [populatePatient, hc]
  · intro h1 h2
    have hc : (extracted.cost != 0 && decide (0 < extracted.cost)
        && !dirty.cost) = true := by simp [h1, h1.ne', h2]
    simp [populateCost, hc]

/-- JS `Math.round (num / denom)` for natural `num` and positive
`denom`: floor of the quotient plus one half (JS rounds halves up). -/
def mathRound (num denom : Nat) : Nat :=
  (2 * num + denom) / (2 * denom)

/-- The dimension logic of `processAndCompressImage` (`ExpenseForm.tsx`
lines 57-112): if `width > height` and `width > maxWidth`, scale to
width `maxWidth` with `height = Math.round(height * maxWidth / width)`;
otherwise, if `height > maxHeight`, scale to height `maxHeight` with
`width = Math.round(width * maxHeight / height)`; otherwise keep both. -/
def compressDims (width height maxWidth maxHeight : Nat) : Nat × Nat :=
  if width > height then
    if width > maxWidth then (maxWidth, mathRound (height * maxWidth) width)
    else (width, height)
  else
    if height > maxHeight then
      (mathRound (width * maxHeight) height, maxHeight)
    else (width, height)

/-- The only call site uses the default `maxWidth = maxHeight = 1024`. -/
def processAndCompressImageDims (width height : Nat) : Nat × Nat :=
  compressDims width height 1024 1024

/-- `mathRound num denom ≤ bound` whenever
`2*num + denom < (bound+1) * (2*denom)`. -/
theorem mathRound_le {num denom bound : Nat} (hd : 0 < denom)
    (h : 2 * num + denom < (bound + 1) * (2 * denom)) :
    mathRound num denom ≤ bound := by
  unfold mathRound
  have h2 : 0 < 2 * denom := by omega
  have := (Nat.div_lt_iff_lt_mul h2).2 h
  omega

/-- C10: for positive input dimensions, the output of the image
compression step fits in 1024×1024; when the larger input dimension
exceeds 1024 it becomes exactly 1024 and the other dimension is the
input scaled by the same ratio, rounded JS-style (ties both become
1024); when neither dimension exceeds 1024 both are unchanged. -/
theorem processAndCompressImage_dims (width height : Nat)
    (hw : 0 < width) (hh : 0 < height) :
    (processAndCompressImageDims width height).1 ≤ 1024
    ∧ (processAndCompressImageDims width height).2 ≤ 1024
    ∧ (max width height ≤ 1024 →
        processAndCompressImageDims width height = (width, height))
    ∧ (height < width → 1024 < width →
        processAndCompressImageDims width height
          = (1024, mathRound (height * 1024) width))
    ∧ (width ≤ height → 1024 < height →
        processAndCompressImageDims width height
          = (mathRound (width * 1024) height, 1024)) := by
  unfold processAndCompressImageDims compressDims
  by_cases h1 : height < width
  · by_cases h2 : 1024 < width
    · have hb : mathRound (height * 1024) width ≤ 1024 :=
        mathRound_le (by omega) (by omega)
      rw [if_pos h1, if_pos h2]
      exact ⟨le_refl _, hb, fun hmax => absurd h2 (by omega),
        fun _ _ => rfl, fun hwh _ => absurd h1 (by omega)⟩
    · rw [if_pos h1, if_neg h2]
      exact ⟨by omega, by omega, fun _ => rfl,
        fun _ h2' => absurd h2' h2, fun hwh _ => absurd h1 (by omega)⟩
  · by_cases h3 : 1024 < height
    · have hb : mathRound (width * 1024) height ≤ 1024 :=
        mathRound_le (by omega) (by omega)
      rw [if_neg h1, if_pos h3]
      exact ⟨hb, le_refl _, fun hmax => absurd h3 (by omega),
        fun hwh _ => absurd hwh h1, fun _ _ => rfl⟩
    · rw [if_neg h1, if_neg h3]
      exact ⟨by omega, by omega, fun _ => rfl,
        fun hwh _ => absurd hwh h1, fun _ h3' => absurd h3' h3⟩

/-- Witness for C10 at a concrete 2000×1000 input: scaled to 1024×512. -/
theorem processAndCompressImage_dims_witness :
    (0 : Nat) < 2000 ∧ (0 : Nat) < 1000
    ∧ ((processAndCompressImageDims 2000 1000).1 ≤ 1024
      ∧ (processAndCompressImageDims 2000 1000).2 ≤ 1024
      ∧ (max 2000 1000 ≤ 1024 →
          processAndCompressImageDims 2000 1000 = (2000, 1000))
      ∧ (1000 < 2000 → 1024 < 2000 →
          processAndCompressImageDims 2000 1000
            = (1024, mathRound (1000 * 1024) 2000))
      ∧ (2000 ≤ 1000 → 1024 < 1000 →
          processAndCompressImageDims 2000 1000
            = (mathRound (2000 * 1024) 1000, 1024))) :=
  ⟨by decide, by decide,
   processAndCompressImage_dims 2000 1000 (by decide) (by decide)⟩

end Studio
